import Mathlib

set_option maxRecDepth 8000

/-! Shallow embedding of the AI-Weather-CLI core (src/assistant.py, src/models.py,
src/weather_service.py).

Python runtime values flowing through the tool-argument pipeline are modelled by
`PyValue`; a raised exception is modelled as `Except.error` carrying the exception
text.  Numbers are modelled as rationals: the int/float distinction and Python's
float rendering are not inspected by any verified property.  The models of the
stdlib calls `json.loads` and `ast.literal_eval` cover the fragment exercised by
the program: JSON `NaN`/`Infinity` literals and Python tuple/dict/set literals are
outside the modelled fragment (they are treated as decode failures). -/

inductive PyValue : Type where
  | pynone : PyValue
  | pybool : Bool → PyValue
  | pynum : ℚ → PyValue
  | pystr : String → PyValue
  | pylist : List PyValue → PyValue
  | pydict : List (String × PyValue) → PyValue

mutual

def PyValue.decEq : (a b : PyValue) → Decidable (a = b)
  | .pynone, .pynone => isTrue rfl
  | .pybool a, .pybool b =>
    if h : a = b then isTrue (by rw [h])
    else isFalse (by intro hh; cases hh; exact h rfl)
  | .pynum a, .pynum b =>
    if h : a = b then isTrue (by rw [h])
    else isFalse (by intro hh; cases hh; exact h rfl)
  | .pystr a, .pystr b =>
    if h : a = b then isTrue (by rw [h])
    else isFalse (by intro hh; cases hh; exact h rfl)
  | .pylist xs, .pylist ys =>
    match PyValue.decEqList xs ys with
    | isTrue h => isTrue (by rw [h])
    | isFalse h => isFalse (by intro hh; cases hh; exact h rfl)
  | .pydict es, .pydict fs =>
    match PyValue.decEqDict es fs with
    | isTrue h => isTrue (by rw [h])
    | isFalse h => isFalse (by intro hh; cases hh; exact h rfl)
  | .pynone, .pybool _ => isFalse (by intro h; cases h)
  | .pynone, .pynum _ => isFalse (by intro h; cases h)
  | .pynone, .pystr _ => isFalse (by intro h; cases h)
  | .pynone, .pylist _ => isFalse (by intro h; cases h)
  | .pynone, .pydict _ => isFalse (by intro h; cases h)
  | .pybool _, .pynone => isFalse (by intro h; cases h)
  | .pybool _, .pynum _ => isFalse (by intro h; cases h)
  | .pybool _, .pystr _ => isFalse (by intro h; cases h)
  | .pybool _, .pylist _ => isFalse (by intro h; cases h)
  | .pybool _, .pydict _ => isFalse (by intro h; cases h)
  | .pynum _, .pynone => isFalse (by intro h; cases h)
  | .pynum _, .pybool _ => isFalse (by intro h; cases h)
  | .pynum _, .pystr _ => isFalse (by intro h; cases h)
  | .pynum _, .pylist _ => isFalse (by intro h; cases h)
  | .pynum _, .pydict _ => isFalse (by intro h; cases h)
  | .pystr _, .pynone => isFalse (by intro h; cases h)
  | .pystr _, .pybool _ => isFalse (by intro h; cases h)
  | .pystr _, .pynum _ => isFalse (by intro h; cases h)
  | .pystr _, .pylist _ => isFalse (by intro h; cases h)
  | .pystr _, .pydict _ => isFalse (by intro h; cases h)
  | .pylist _, .pynone => isFalse (by intro h; cases h)
  | .pylist _, .pybool _ => isFalse (by intro h; cases h)
  | .pylist _, .pynum _ => isFalse (by intro h; cases h)
  | .pylist _, .pystr _ => isFalse (by intro h; cases h)
  | .pylist _, .pydict _ => isFalse (by intro h; cases h)
  | .pydict _, .pynone => isFalse (by intro h; cases h)
  | .pydict _, .pybool _ => isFalse (by intro h; cases h)
  | .pydict _, .pynum _ => isFalse (by intro h; cases h)
  | .pydict _, .pystr _ => isFalse (by intro h; cases h)
  | .pydict _, .pylist _ => isFalse (by intro h; cases h)
termination_by a _ => sizeOf a

def PyValue.decEqList : (xs ys : List PyValue) → Decidable (xs = ys)
  | [], [] => isTrue rfl
  | x :: xs, y :: ys =>
    match PyValue.decEq x y, PyValue.decEqList xs ys with
    | isTrue h1, isTrue h2 => isTrue (by rw [h1, h2])
    | isFalse h1, _ => isFalse (by intro hh; injection hh with e1 e2; exact h1 e1)
    | isTrue _, isFalse h2 => isFalse (by intro hh; injection hh with e1 e2; exact h2 e2)
  | [], _ :: _ => isFalse (by intro h; cases h)
  | _ :: _, [] => isFalse (by intro h; cases h)
termination_by xs _ => sizeOf xs

def PyValue.decEqDict :
    (es fs : List (String × PyValue)) → Decidable (es = fs)
  | [], [] => isTrue rfl
  | (k, v) :: es, (k2, v2) :: fs =>
    if h0 : k = k2 then
      match PyValue.decEq v v2, PyValue.decEqDict es fs with
      | isTrue h1, isTrue h2 => isTrue (by rw [h0, h1, h2])
      | isFalse h1, _ => isFalse (by
          intro hh; injection hh with e1 e2
          exact h1 (congrArg Prod.snd e1))
      | isTrue _, isFalse h2 => isFalse (by
          intro hh; injection hh with e1 e2; exact h2 e2)
    else isFalse (by
      intro hh; injection hh with e1 e2
      exact h0 (congrArg Prod.fst e1))
  | [], _ :: _ => isFalse (by intro h; cases h)
  | _ :: _, [] => isFalse (by intro h; cases h)
termination_by es _ => sizeOf es

end

instance : DecidableEq PyValue := PyValue.decEq

/-- Python truthiness (`bool(x)`) for the modelled value fragment. -/
def pyTruthy : PyValue → Bool
  | .pynone => false
  | .pybool b => b
  | .pynum q => q != 0
  | .pystr s => s != ""
  | .pylist xs => !xs.isEmpty
  | .pydict es => !es.isEmpty

def typeErrorNotIterable : String := "TypeError: argument is not iterable"

/-- Python `key in v` for a string key: key membership on dicts, substring test on
strings, element membership on lists; a TypeError on non-iterable values. -/
def pyContains (v : PyValue) (key : String) : Except String Bool :=
  match v with
  | .pydict es => .ok (es.any (fun e => e.1 == key))
  | .pystr s => .ok ((s.splitOn key).length > 1)
  | .pylist xs => .ok (xs.any (fun x => x == .pystr key))
  | _ => .error typeErrorNotIterable

/-- Python `v[key]` for a string key. -/
def pySubscriptStr (v : PyValue) (key : String) : Except String PyValue :=
  match v with
  | .pydict es =>
    match es.lookup key with
    | some x => .ok x
    | none => .error ("KeyError: " ++ key)
  | .pystr _ => .error "TypeError: string indices must be integers"
  | .pylist _ => .error "TypeError: list indices must be integers"
  | _ => .error "TypeError: object is not subscriptable"

/-- Python `v[i]` for a nonnegative integer index. -/
def pySubscriptNat (v : PyValue) (i : Nat) : Except String PyValue :=
  match v with
  | .pylist xs =>
    match xs[i]? with
    | some x => .ok x
    | none => .error "IndexError: list index out of range"
  | .pystr s =>
    match s.toList[i]? with
    | some c => .ok (.pystr (String.singleton c))
    | none => .error "IndexError: string index out of range"
  | .pydict _ => .error "KeyError"
  | _ => .error "TypeError: object is not subscriptable"

/-- Python `v.get(key, dflt)`: defined on dicts only, an AttributeError otherwise. -/
def pyGet (v : PyValue) (key : String) (dflt : PyValue) : Except String PyValue :=
  match v with
  | .pydict es => .ok ((es.lookup key).getD dflt)
  | _ => .error "AttributeError: object has no attribute get"

/-- Python `d[key] = x` on a dict: replaces in place if the key exists, else appends. -/
def dictSet (es : List (String × PyValue)) (key : String) (x : PyValue) :
    List (String × PyValue) :=
  if es.any (fun e => e.1 == key) then
    es.map (fun e => if e.1 == key then (e.1, x) else e)
  else es ++ [(key, x)]

def intRepr (i : Int) : String :=
  if i < 0 then "-" ++ Nat.repr i.natAbs else Nat.repr i.natAbs

/-- Rendering of a modelled number.  Python's exact int/float repr is abstracted:
no verified property inspects a rendered number. -/
def ratRepr (q : ℚ) : String :=
  if q.den = 1 then intRepr q.num else intRepr q.num ++ "/" ++ Nat.repr q.den

/-- Python `repr(x)` for the modelled fragment (string escaping inside repr is
abstracted: quotes are added, inner characters are kept as-is). -/
def pyRepr : PyValue → String
  | .pynone => "None"
  | .pybool b => if b then "True" else "False"
  | .pynum q => ratRepr q
  | .pystr s => "\x27" ++ s ++ "\x27"
  | .pylist xs => "[" ++ String.intercalate ", " (xs.attach.map (fun x => pyRepr x.1)) ++ "]"
  | .pydict es =>
    "\x7b" ++
      String.intercalate ", "
        (es.attach.map (fun e => "\x27" ++ e.1.1 ++ "\x27: " ++ pyRepr e.1.2)) ++
      "\x7d"
termination_by v => sizeOf v
decreasing_by
  · have := List.sizeOf_lt_of_mem x.2
    simp only [PyValue.pylist.sizeOf_spec]
    omega
  · rcases e with ⟨⟨k, v⟩, hm⟩
    have := List.sizeOf_lt_of_mem hm
    simp only [Prod.mk.sizeOf_spec] at this
    simp only [PyValue.pydict.sizeOf_spec]
    omega

/-- Python `str(x)`: the string itself for strings, `repr`-style otherwise. -/
def pyStr : PyValue → String
  | .pystr s => s
  | v => pyRepr v

/- ### A model of `json.loads` (the fragment used by the program) -/

def dquoteChar : Char := Char.ofNat 34
def squoteChar : Char := Char.ofNat 39
def backslashChar : Char := Char.ofNat 92
def lbraceChar : Char := Char.ofNat 123
def rbraceChar : Char := Char.ofNat 125

def skipWs : List Char → List Char
  | [] => []
  | c :: cs => if c = ' ' ∨ c = '\t' ∨ c = '\n' ∨ c = '\r' then skipWs cs else c :: cs

def hexVal (c : Char) : Option Nat :=
  if '0' ≤ c ∧ c ≤ '9' then some (c.toNat - 48)
  else if 'a' ≤ c ∧ c ≤ 'f' then some (c.toNat - 97 + 10)
  else if 'A' ≤ c ∧ c ≤ 'F' then some (c.toNat - 65 + 10)
  else none

def parseJsonStringBody : Nat → List Char → Option (String × List Char)
  | 0, _ => none
  | _, [] => none
  | fuel+1, c :: cs =>
    if c = dquoteChar then some ("", cs)
    else if c = backslashChar then
      match cs with
      | [] => none
      | e :: cs2 =>
        let dec : Option (Char × List Char) :=
          if e = dquoteChar then some (dquoteChar, cs2)
          else if e = backslashChar then some (backslashChar, cs2)
          else if e = '/' then some ('/', cs2)
          else if e = 'b' then some (Char.ofNat 8, cs2)
          else if e = 'f' then some (Char.ofNat 12, cs2)
          else if e = 'n' then some ('\n', cs2)
          else if e = 'r' then some ('\r', cs2)
          else if e = 't' then some ('\t', cs2)
          else if e = 'u' then
            match cs2 with
            | a :: b :: c3 :: d :: rest =>
              match hexVal a, hexVal b, hexVal c3, hexVal d with
              | some x, some y, some z, some w =>
                some (Char.ofNat (x*4096 + y*256 + z*16 + w), rest)
              | _, _, _, _ => none
            | _ => none
          else none
        match dec with
        | none => none
        | some (ch, rest) =>
          match parseJsonStringBody fuel rest with
          | none => none
          | some (s, rem) => some (String.singleton ch ++ s, rem)
    else
      match parseJsonStringBody fuel cs with
      | none => none
      | some (s, rem) => some (String.singleton c ++ s, rem)

def spanDigits : List Char → List Char × List Char
  | [] => ([], [])
  | c :: cs =>
    if c.isDigit then
      let p := spanDigits cs
      (c :: p.1, p.2)
    else ([], c :: cs)

def digitsToNat (ds : List Char) : Nat :=
  ds.foldl (fun a c => a * 10 + (c.toNat - 48)) 0

def parseJsonNumber (cs : List Char) : Option (ℚ × List Char) :=
  let sgn : Bool × List Char :=
    match cs with
    | c :: r => if c = '-' then (true, r) else (false, cs)
    | [] => (false, cs)
  let neg := sgn.1
  let p1 := spanDigits sgn.2
  let ip := p1.1
  let cs2 := p1.2
  if ip.isEmpty then none
  else if ip.length > 1 ∧ ip.headD 'x' = '0' then none
  else
    let intVal : ℚ := (digitsToNat ip : ℚ)
    let fracStep : Option (ℚ × List Char) :=
      match cs2 with
      | c :: r =>
        if c = '.' then
          let p2 := spanDigits r
          if p2.1.isEmpty then none
          else some (intVal + (digitsToNat p2.1 : ℚ) / ((10 : ℚ) ^ p2.1.length), p2.2)
        else some (intVal, cs2)
      | [] => some (intVal, cs2)
    match fracStep with
    | none => none
    | some (m, cs3) =>
      let expStep : Option (ℚ × List Char) :=
        match cs3 with
        | c :: r =>
          if c = 'e' ∨ c = 'E' then
            let es : Bool × List Char :=
              match r with
              | c2 :: r2 =>
                if c2 = '-' then (true, r2)
                else if c2 = '+' then (false, r2)
                else (false, r)
              | [] => (false, r)
            let p3 := spanDigits es.2
            if p3.1.isEmpty then none
            else
              let e := digitsToNat p3.1
              some (if es.1 then m / ((10 : ℚ) ^ e) else m * ((10 : ℚ) ^ e), p3.2)
          else some (m, cs3)
        | [] => some (m, cs3)
      match expStep with
      | none => none
      | some (q, cs4) => some (if neg then -q else q, cs4)

mutual

def parseJsonValue : Nat → List Char → Option (PyValue × List Char)
  | 0, _ => none
  | fuel+1, cs =>
    match skipWs cs with
    | [] => none
    | c :: rest =>
      if c = dquoteChar then
        match parseJsonStringBody (rest.length + 1) rest with
        | some (s, rem) => some (.pystr s, rem)
        | none => none
      else if c = lbraceChar then
        match skipWs rest with
        | c2 :: r2 =>
          if c2 = rbraceChar then some (.pydict [], r2)
          else parseJsonObjectItems fuel (c2 :: r2) []
        | [] => none
      else if c = '[' then
        match skipWs rest with
        | c2 :: r2 =>
          if c2 = ']' then some (.pylist [], r2)
          else parseJsonArrayItems fuel (c2 :: r2) []
        | [] => none
      else if c = 'n' then
        match rest with
        | 'u' :: 'l' :: 'l' :: r => some (.pynone, r)
        | _ => none
      else if c = 't' then
        match rest with
        | 'r' :: 'u' :: 'e' :: r => some (.pybool true, r)
        | _ => none
      else if c = 'f' then
        match rest with
        | 'a' :: 'l' :: 's' :: 'e' :: r => some (.pybool false, r)
        | _ => none
      else
        match parseJsonNumber (c :: rest) with
        | some (q, rem) => some (.pynum q, rem)
        | none => none

def parseJsonArrayItems : Nat → List Char → List PyValue → Option (PyValue × List Char)
  | 0, _, _ => none
  | fuel+1, cs, acc =>
    match parseJsonValue fuel cs with
    | none => none
    | some (v, rem) =>
      match skipWs rem with
      | ',' :: r => parseJsonArrayItems fuel r (acc ++ [v])
      | ']' :: r => some (.pylist (acc ++ [v]), r)
      | _ => none

def parseJsonObjectItems : Nat → List Char →
    List (String × PyValue) → Option (PyValue × List Char)
  | 0, _, _ => none
  | fuel+1, cs, acc =>
    match skipWs cs with
    | [] => none
    | c :: rest =>
      if c = dquoteChar then
        match parseJsonStringBody (rest.length + 1) rest with
        | none => none
        | some (k, rem) =>
          match skipWs rem with
          | ':' :: r =>
            match parseJsonValue fuel r with
            | none => none
            | some (v, rem2) =>
              let acc2 := dictSet acc k v
              match skipWs rem2 with
              | ',' :: r2 => parseJsonObjectItems fuel r2 acc2
              | c3 :: r3 =>
                if c3 = rbraceChar then some (.pydict acc2, r3) else none
              | [] => none
          | _ => none
      else none

end

/-- Model of `json.loads` on the fragment of JSON the program exercises. -/
def jsonLoads (s : String) : Except String PyValue :=
  match parseJsonValue (2 * s.length + 8) s.toList with
  | some (v, rem) =>
    if (skipWs rem).isEmpty then .ok v else .error "JSONDecodeError: extra data"
  | none => .error "JSONDecodeError: expecting value"

/- ### A model of `ast.literal_eval` (the fragment used by the program) -/

def parsePyStringBody : Char → Nat → List Char → Option (String × List Char)
  | _, 0, _ => none
  | _, _, [] => none
  | q, fuel+1, c :: cs =>
    if c = q then some ("", cs)
    else if c = backslashChar then
      match cs with
      | [] => none
      | e :: cs2 =>
        let dec : Char × Bool :=
          if e = squoteChar then (squoteChar, true)
          else if e = dquoteChar then (dquoteChar, true)
          else if e = backslashChar then (backslashChar, true)
          else if e = 'n' then ('\n', true)
          else if e = 't' then ('\t', true)
          else if e = 'r' then ('\r', true)
          else (e, false)
        match parsePyStringBody q fuel cs2 with
        | none => none
        | some (s, rem) =>
          if dec.2 then some (String.singleton dec.1 ++ s, rem)
          else some (String.singleton backslashChar ++ String.singleton e ++ s, rem)
    else
      match parsePyStringBody q fuel cs with
      | none => none
      | some (s, rem) => some (String.singleton c ++ s, rem)

mutual

def parsePyLiteral : Nat → List Char → Option (PyValue × List Char)
  | 0, _ => none
  | fuel+1, cs =>
    match skipWs cs with
    | [] => none
    | c :: rest =>
      if c = squoteChar then
        (parsePyStringBody squoteChar (rest.length + 1) rest).map
          (fun p => (.pystr p.1, p.2))
      else if c = dquoteChar then
        (parsePyStringBody dquoteChar (rest.length + 1) rest).map
          (fun p => (.pystr p.1, p.2))
      else if c = '[' then
        match skipWs rest with
        | c2 :: r2 =>
          if c2 = ']' then some (.pylist [], r2)
          else parsePyListItems fuel (c2 :: r2) []
        | [] => none
      else if c = 'N' then
        match rest with
        | 'o' :: 'n' :: 'e' :: r => some (.pynone, r)
        | _ => none
      else if c = 'T' then
        match rest with
        | 'r' :: 'u' :: 'e' :: r => some (.pybool true, r)
        | _ => none
      else if c = 'F' then
        match rest with
        | 'a' :: 'l' :: 's' :: 'e' :: r => some (.pybool false, r)
        | _ => none
      else if c = '+' then
        (parseJsonNumber rest).map (fun p => (.pynum p.1, p.2))
      else
        (parseJsonNumber (c :: rest)).map (fun p => (.pynum p.1, p.2))

def parsePyListItems : Nat → List Char → List PyValue → Option (PyValue × List Char)
  | 0, _, _ => none
  | fuel+1, cs, acc =>
    match parsePyLiteral fuel cs with
    | none => none
    | some (v, rem) =>
      match skipWs rem with
      | ',' :: r =>
        match skipWs r with
        | c2 :: r2 =>
          if c2 = ']' then some (.pylist (acc ++ [v]), r2)
          else parsePyListItems fuel (c2 :: r2) (acc ++ [v])
        | [] => none
      | ']' :: r => some (.pylist (acc ++ [v]), r)
      | _ => none

end

/-- Model of `ast.literal_eval` on the fragment the program exercises (strings,
numbers, booleans, None, nested lists; other literal forms are decode failures). -/
def literalEval (s : String) : Except String PyValue :=
  match parsePyLiteral (2 * s.length + 8) s.toList with
  | some (v, rem) =>
    if (skipWs rem).isEmpty then .ok v else .error "SyntaxError: invalid syntax"
  | none => .error "SyntaxError: invalid syntax"

/- ### Data model (src/models.py) -/

structure Location where
  latitude : PyValue
  longitude : PyValue
  name : PyValue
  country : PyValue := .pystr ""
deriving DecidableEq

/-- `Location.__str__`. -/
def locationStr (loc : Location) : String :=
  if pyTruthy loc.country then pyStr loc.name ++ ", " ++ pyStr loc.country
  else pyStr loc.name

structure WeatherData where
  temperature : PyValue
  apparent_temperature : PyValue
  humidity : PyValue
  wind_speed : PyValue
  precipitation : PyValue
  weather_code : PyValue := .pynone
  temperature_unit : PyValue := .pystr "°C"
  humidity_unit : PyValue := .pystr "%"
  wind_speed_unit : PyValue := .pystr "km/h"
  precipitation_unit : PyValue := .pystr "mm"
deriving DecidableEq

/-- `WeatherData.format_for_llm`. -/
def formatForLLM (w : WeatherData) : String :=
  "Temperature: " ++ pyStr w.temperature ++ " " ++ pyStr w.temperature_unit ++ "\n" ++
  "Feels like: " ++ pyStr w.apparent_temperature ++ " " ++ pyStr w.temperature_unit ++ "\n" ++
  "Humidity: " ++ pyStr w.humidity ++ " " ++ pyStr w.humidity_unit ++ "\n" ++
  "Wind Speed: " ++ pyStr w.wind_speed ++ " " ++ pyStr w.wind_speed_unit ++ "\n" ++
  "Precipitation: " ++ pyStr w.precipitation ++ " " ++ pyStr w.precipitation_unit

structure CityWeatherResult where
  city : PyValue
  location : Option Location := none
  weather_data : Option WeatherData := none
  error : Option String := none
deriving DecidableEq

/-- `CityWeatherResult.to_string`.  A dataclass instance is always truthy in Python,
so `if self.location and self.weather_data` is the `some`/`some` test; an empty
error string is falsy and falls through, as in the source. -/
def cityResultToString (r : CityWeatherResult) : String :=
  if r.error.getD "" ≠ "" then r.error.getD ""
  else
    match r.location, r.weather_data with
    | some loc, some wd => "Weather for " ++ locationStr loc ++ ":\n" ++ formatForLLM wd
    | _, _ => "Error: Incomplete data for city \x27" ++ pyStr r.city ++ "\x27."

structure InvokedFunction where
  name : String := ""
  arguments : String := ""
deriving DecidableEq

structure ToolInvocation where
  id : String := ""
  function : InvokedFunction := {}
deriving DecidableEq

/-- `InvokedFunction.to_dict`. -/
def invokedFunctionDict (f : InvokedFunction) : PyValue :=
  .pydict [("name", .pystr f.name), ("arguments", .pystr f.arguments)]

/-- `ToolInvocation.to_history_dict`. -/
def toolInvocationHistoryDict (tc : ToolInvocation) : PyValue :=
  .pydict [("id", .pystr tc.id), ("type", .pystr "function"),
           ("function", invokedFunctionDict tc.function)]

structure Message where
  role : String
  content : Option String := none
  tool_calls : Option (List ToolInvocation) := none
  tool_call_id : Option String := none
  name : Option String := none
deriving DecidableEq

/-- `self.content is not None and self.content != ""` in `Message.to_dict`. -/
def messageHasContent (m : Message) : Bool :=
  match m.content with
  | some s => s != ""
  | none => false

/-- `self.tool_calls is not None and len(self.tool_calls) > 0` in `Message.to_dict`. -/
def messageHasToolCalls (m : Message) : Bool :=
  match m.tool_calls with
  | some l => !l.isEmpty
  | none => false

/-- `Message.to_dict`: raises ValueError for an assistant message carrying neither
non-empty content nor a non-empty tool-call list, else builds the API dict. -/
def messageToDict (m : Message) : Except String PyValue :=
  if m.role == "assistant" && !messageHasContent m && !messageHasToolCalls m then
    .error "ValueError: Assistant message must have either content or tool_calls"
  else
    .ok (.pydict (
      [("role", .pystr m.role)] ++
      (match m.content with | some c => [("content", .pystr c)] | none => []) ++
      (match m.tool_calls with
       | some l => [("tool_calls", .pylist (l.map toolInvocationHistoryDict))]
       | none => []) ++
      (match m.tool_call_id with | some i => [("tool_call_id", .pystr i)] | none => []) ++
      (match m.name with | some n => [("name", .pystr n)] | none => [])))

/-- `ToolCallResponse` and its `to_dict`: the dict has exactly these four keys, so
the structure itself models the dict. -/
structure ToolCallResponse where
  tool_call_id : String
  role : String := "tool"
  name : String := ""
  content : String := ""
deriving DecidableEq

structure ParsedToolArguments where
  cities : PyValue := .pylist []
  raw_arguments : PyValue := .pydict []
deriving DecidableEq

/-- `ParsedToolArguments.to_dict`: `raw_arguments.copy()` (an AttributeError on
values with no `.copy`), then `result["cities"] = self.cities` when `self.cities`
is truthy (a TypeError when the copy is a list). -/
def parsedToolArgumentsToDict (p : ParsedToolArguments) : Except String PyValue :=
  match p.raw_arguments with
  | .pydict es =>
    .ok (if pyTruthy p.cities then .pydict (dictSet es "cities" p.cities) else .pydict es)
  | .pylist xs =>
    if pyTruthy p.cities then .error "TypeError: list indices must be integers"
    else .ok (.pylist xs)
  | _ => .error "AttributeError: object has no attribute copy"

def WEATHER_TOOL_NAME : String := "get_weather"

/- ### Tool Argument Parser (`WeatherAssistant._parse_tool_arguments`) -/

def parseToolArguments (arguments_str : String) : Except String ParsedToolArguments := do
  let arguments : PyValue :=
    match jsonLoads arguments_str with
    | .ok v => v
    | .error _ => .pydict []
  let mem ← pyContains arguments "cities"
  if mem then do
    let cv ← pySubscriptStr arguments "cities"
    match cv with
    | .pystr cs =>
      match jsonLoads cs with
      | .ok v => pure { cities := v, raw_arguments := arguments }
      | .error _ =>
        match literalEval cs with
        | .ok parsed =>
          match parsed with
          | .pylist xs => pure { cities := .pylist xs, raw_arguments := arguments }
          | v =>
            pure { cities := if pyTruthy v then .pylist [v] else .pylist [],
                   raw_arguments := arguments }
        | .error _ => pure { cities := .pylist [.pystr cs], raw_arguments := arguments }
    | .pylist xs => pure { cities := .pylist xs, raw_arguments := arguments }
    | _ => pure { cities := .pylist [], raw_arguments := arguments }
  else
    pure { cities := .pylist [], raw_arguments := arguments }

/- ### External Data Client (`WeatherService.get_coordinates`, src/weather_service.py)

The HTTP exchange is abstracted as a `GeoApiOutcome`: a request timeout, another
HTTP error (connection failure or a `raise_for_status` error), an exception the
handlers do not catch (e.g. a JSON body decode failure), or a decoded JSON body.
The returned pair is (returned value / raised exception, printed diagnostic lines). -/

inductive GeoApiOutcome where
  | timeout (msg : String)
  | httpError (msg : String)
  | raised (msg : String)
  | success (data : PyValue)
deriving DecidableEq

def geoTimeoutLine (msg : String) : String :=
  "\n[System Error] Geocoding API timeout: " ++ msg

def geoFailedLine (msg : String) : String :=
  "\n[System Error] Geocoding API failed: " ++ msg

def getCoordinates (resp : GeoApiOutcome) :
    Except String (Option Location) × List String :=
  match resp with
  | .timeout m => (.ok none, [geoTimeoutLine m])
  | .httpError m => (.ok none, [geoFailedLine m])
  | .raised m => (.error m, [])
  | .success data =>
    ((do
      let results ← pyGet data "results" .pynone
      if pyTruthy results then do
        let location_data ← pySubscriptNat results 0
        let lat ← pySubscriptStr location_data "latitude"
        let lon ← pySubscriptStr location_data "longitude"
        let nm ← pySubscriptStr location_data "name"
        let country ← pyGet location_data "country" (.pystr "")
        pure (some { latitude := lat, longitude := lon, name := nm, country := country })
      else pure none), [])

/- ### Tool Executor (`WeatherAssistant`, src/assistant.py)

The weather service is the external collaborator of the executor: `geo` models
`get_coordinates` (an `Option Location` result or an uncaught exception) and
`fetch` models `get_current_weather` on the resolved coordinates (weather data or
a raised exception). -/

/-- `WeatherAssistant._validate_and_normalize_cities`. -/
def validateAndNormalizeCities (arguments : PyValue) : Except String (List PyValue) := do
  let cities ← pyGet arguments "cities" (.pylist [])
  match cities with
  | .pylist xs => pure xs
  | c => pure (if pyTruthy c then [c] else [])

/-- `WeatherAssistant._get_weather_for_city`: geocode, then fetch; a fetch failure
is caught and becomes a per-city error, a geocoding exception propagates. -/
def getWeatherForCity (geo : PyValue → Except String (Option Location))
    (fetch : PyValue → PyValue → Except String WeatherData)
    (city : PyValue) : Except String CityWeatherResult := do
  let location? ← geo city
  match location? with
  | none =>
    pure { city := city,
           error := some ("Error: Could not find coordinates for city \x27" ++
             pyStr city ++ "\x27.") }
  | some location =>
    match fetch location.latitude location.longitude with
    | .ok weather_data =>
      pure { city := city, location := some location, weather_data := some weather_data }
    | .error e =>
      pure { city := city,
             error := some ("Error fetching weather data for " ++ pyStr city ++ ": " ++ e) }

/-- `WeatherAssistant._process_city_results`: the source iterates `enumerate(results)`
reading `cities[i]`; the two lists always have equal length (they come from
`asyncio.gather` over one task per city), so the zip is the same pairing. -/
def processCityResults (cities : List PyValue)
    (results : List (Except String CityWeatherResult)) : List CityWeatherResult :=
  (cities.zip results).map (fun p =>
    match p.2 with
    | .error e =>
      { city := p.1,
        error := some ("Error processing city \x27" ++ pyStr p.1 ++ "\x27: " ++ e) }
    | .ok r => r)

/-- `WeatherAssistant._fetch_weather_for_cities`: `asyncio.gather` with
`return_exceptions=True` joins all per-city pipelines and yields their outcomes
(value or captured exception) in input order. -/
def fetchWeatherForCities (geo : PyValue → Except String (Option Location))
    (fetch : PyValue → PyValue → Except String WeatherData)
    (cities : List PyValue) : List CityWeatherResult :=
  processCityResults cities (cities.map (getWeatherForCity geo fetch))

/-- `WeatherAssistant._format_weather_content`. -/
def formatWeatherContent (results : List CityWeatherResult) : String :=
  String.intercalate "\n\n" (results.map cityResultToString)

/-- `WeatherAssistant._create_error_response` composed with
`WeatherToolResult.to_tool_response`. -/
def createErrorResponse (call_id : String) (error_message : String) : ToolCallResponse :=
  { tool_call_id := call_id, name := WEATHER_TOOL_NAME, content := error_message }

/-- `WeatherAssistant._run_weather_tool`. -/
def runWeatherTool (geo : PyValue → Except String (Option Location))
    (fetch : PyValue → PyValue → Except String WeatherData)
    (call_id : String) (arguments : PyValue) : Except String ToolCallResponse := do
  let cities ← validateAndNormalizeCities arguments
  if cities.isEmpty then
    pure (createErrorResponse call_id "Error: No cities provided.")
  else
    pure { tool_call_id := call_id, name := WEATHER_TOOL_NAME,
           content := formatWeatherContent (fetchWeatherForCities geo fetch cities) }

/-- `WeatherAssistant._execute_tool_call`: argument parsing happens before the
function-name dispatch, as in the source. -/
def executeToolCall (geo : PyValue → Except String (Option Location))
    (fetch : PyValue → PyValue → Except String WeatherData)
    (tool_call : ToolInvocation) : Except String ToolCallResponse := do
  let func_name := tool_call.function.name
  let parsed_args ← parseToolArguments tool_call.function.arguments
  if func_name == WEATHER_TOOL_NAME then do
    let argsDict ← parsedToolArgumentsToDict parsed_args
    runWeatherTool geo fetch tool_call.id argsDict
  else
    pure { tool_call_id := tool_call.id, name := func_name,
           content := "Error: Unknown function requested." }

/- ### Tool Call Assembler (`_accumulate_tool_call_chunk`, `_convert_tool_calls_buffer`)

The buffer dict is modelled as an insertion-ordered association list with unique
keys, exactly the representation of a Python dict. -/

structure ToolCallFragment where
  index : Nat
  id : Option String := none
  name : Option String := none
  arguments : Option String := none
deriving DecidableEq

/-- One fragment applied to one in-flight invocation: each present piece is
appended (`+=`), never replaced.  `if tc.id:` skips `None` and `""`; appending
`""` is the identity, so `Option.getD ""` is the same update. -/
def applyFragment (inv : ToolInvocation) (tc : ToolCallFragment) : ToolInvocation :=
  { id := inv.id ++ tc.id.getD "",
    function := { name := inv.function.name ++ tc.name.getD "",
                  arguments := inv.function.arguments ++ tc.arguments.getD "" } }

/-- One fragment applied to the buffer: allocate a fresh invocation on a slot's
first fragment, then append the pieces at that slot. -/
def accumulateStep (buf : List (Nat × ToolInvocation)) (tc : ToolCallFragment) :
    List (Nat × ToolInvocation) :=
  if buf.any (fun p => p.1 == tc.index) then
    buf.map (fun p => if p.1 == tc.index then (p.1, applyFragment p.2 tc) else p)
  else buf ++ [(tc.index, applyFragment {} tc)]

/-- `WeatherAssistant._accumulate_tool_call_chunk` (one delta's fragment list). -/
def accumulateToolCallChunk (buf : List (Nat × ToolInvocation))
    (tool_calls_delta : List ToolCallFragment) : List (Nat × ToolInvocation) :=
  tool_calls_delta.foldl accumulateStep buf

/-- The buffer built from a whole stream's fragments in arrival order. -/
def accumulateToolCalls (frags : List ToolCallFragment) : List (Nat × ToolInvocation) :=
  frags.foldl accumulateStep []

/-- `WeatherAssistant._convert_tool_calls_buffer`:
`[buffer[idx] for idx in sorted(buffer.keys())]`. -/
def convertToolCallsBuffer (buf : List (Nat × ToolInvocation)) : List ToolInvocation :=
  (List.insertionSort (· ≤ ·) (buf.map Prod.fst)).filterMap (fun i => buf.lookup i)

/- ### Interaction Loop (`_run_interaction_loop` and helpers) -/

structure StreamChunk where
  content : Option String := none
  tool_calls : Option (List ToolCallFragment) := none
deriving DecidableEq

/-- One stream chunk processed by `_process_stream`: `if delta.content:` and
`if delta.tool_calls:` are Python truthiness tests. -/
def processStreamStep (st : String × List (Nat × ToolInvocation)) (chunk : StreamChunk) :
    String × List (Nat × ToolInvocation) :=
  let st1 := match chunk.content with
    | some s => if s ≠ "" then (st.1 ++ s, st.2) else st
    | none => st
  match chunk.tool_calls with
  | some tcs => if tcs ≠ [] then (st1.1, accumulateToolCallChunk st1.2 tcs) else st1
  | none => st1

/-- `WeatherAssistant._process_stream`: collected content and tool-calls buffer. -/
def processStream (chunks : List StreamChunk) : String × List (Nat × ToolInvocation) :=
  chunks.foldl processStreamStep ("", [])

/-- The tool message `_handle_tool_calls` builds from the executed call's
response dict. -/
def toolMessageOf (d : ToolCallResponse) : Message :=
  { role := d.role, tool_call_id := some d.tool_call_id, name := some d.name,
    content := some d.content }

/-- `WeatherAssistant._handle_tool_calls`: executes only the first invocation and
appends its single tool message; an exception propagates with the history as
already mutated. -/
def handleToolCalls (geo : PyValue → Except String (Option Location))
    (fetch : PyValue → PyValue → Except String WeatherData)
    (tool_calls : List ToolInvocation) (history : List Message) :
    List Message × Except String Unit :=
  match tool_calls with
  | [] => (history, .ok ())
  | tool_call :: _ =>
    match executeToolCall geo fetch tool_call with
    | .error e => (history, .error e)
    | .ok d => (history ++ [toolMessageOf d], .ok ())

/-- The assistant message appended when tool calls are present:
`content if content else None` plus the history dicts of all assembled calls. -/
def assistantMessage (content : String) (tool_calls : List ToolInvocation) : Message :=
  { role := "assistant", content := if content ≠ "" then some content else none,
    tool_calls := some tool_calls }

/-- The final assistant message appended when no tool calls were assembled. -/
def finalAssistantMessage (content : String) : Message :=
  { role := "assistant", content := if content ≠ "" then some content else none }

/-- `WeatherAssistant._handle_stream_response`: returns the updated history and
either the continue flag or the exception propagating to the loop handler. -/
def handleStreamResponse (geo : PyValue → Except String (Option Location))
    (fetch : PyValue → PyValue → Except String WeatherData)
    (content : String) (buf : List (Nat × ToolInvocation)) (history : List Message) :
    List Message × Except String Bool :=
  if buf.isEmpty then
    (history ++ [finalAssistantMessage content], .ok false)
  else
    let tool_calls_list := convertToolCallsBuffer buf
    let h1 := history ++ [assistantMessage content tool_calls_list]
    match handleToolCalls geo fetch tool_calls_list h1 with
    | (h2, .ok _) => (h2, .ok true)
    | (h2, .error e) => (h2, .error e)

/-- The outcome of `_create_api_stream`: either an `APITimeoutError` (reported,
`None` returned, loop breaks) or a stream of chunks. -/
inductive StreamCreation where
  | timeout (msg : String)
  | ok (chunks : List StreamChunk)
deriving DecidableEq

/-- One iteration of `_run_interaction_loop`: the boolean is the continue flag
(`False` both for the terminal text turn, the timeout break, and the top-level
exception handler's break). -/
def runTurn (geo : PyValue → Except String (Option Location))
    (fetch : PyValue → PyValue → Except String WeatherData)
    (creation : StreamCreation) (history : List Message) : List Message × Bool :=
  match creation with
  | .timeout _ => (history, false)
  | .ok chunks =>
    let st := processStream chunks
    match handleStreamResponse geo fetch st.1 st.2 history with
    | (h, .ok b) => (h, b)
    | (h, .error _) => (h, false)

/-- `WeatherAssistant._run_interaction_loop`: iterate turns while the continue
flag holds; each iteration consumes the next stream-creation outcome. -/
def runInteractionLoop (geo : PyValue → Except String (Option Location))
    (fetch : PyValue → PyValue → Except String WeatherData) :
    List StreamCreation → List Message → List Message
  | [], history => history
  | c :: cs, history =>
    let r := runTurn geo fetch c history
    if r.2 then runInteractionLoop geo fetch cs r.1 else r.1

/- ### Fixtures used by concrete witnesses and counterexamples -/

/-- A geocoding oracle that resolves nothing. -/
def geoNone : PyValue → Except String (Option Location) := fun _ => .ok none

/-- A weather-fetch oracle that always raises. -/
def fetchFail : PyValue → PyValue → Except String WeatherData := fun _ _ => .error "boom"

def locX : Location :=
  { latitude := .pystr "latX", longitude := .pystr "lonX",
    name := .pystr "Xv", country := .pystr "CX" }

def locZ : Location :=
  { latitude := .pystr "latZ", longitude := .pystr "lonZ",
    name := .pystr "Zv", country := .pystr "" }

def wdX : WeatherData :=
  { temperature := .pynum 20, apparent_temperature := .pynum 19, humidity := .pynum 50,
    wind_speed := .pynum 10, precipitation := .pynum 0,
    temperature_unit := .pystr "C", humidity_unit := .pystr "%",
    wind_speed_unit := .pystr "km/h", precipitation_unit := .pystr "mm" }

/-- A geocoding oracle: Y is not found, Z resolves to `locZ`, everything else to `locX`. -/
def geo3 : PyValue → Except String (Option Location) := fun c =>
  match c with
  | .pystr "Y" => .ok none
  | .pystr "Z" => .ok (some locZ)
  | _ => .ok (some locX)

/-- A weather-fetch oracle that raises exactly at Z's coordinates. -/
def fetch3 : PyValue → PyValue → Except String WeatherData := fun lat _ =>
  match lat with
  | .pystr "latZ" => .error "boom"
  | _ => .ok wdX

def cities3 : List PyValue := [.pystr "X", .pystr "Y", .pystr "Z"]

/-- The outcome of one city as the executor records it: the pipeline result, with
a raised exception converted into that city's error entry (the per-slot view of
`_process_city_results`). -/
def processOneCity (geo : PyValue → Except String (Option Location))
    (fetch : PyValue → PyValue → Except String WeatherData)
    (city : PyValue) : CityWeatherResult :=
  match getWeatherForCity geo fetch city with
  | .ok r => r
  | .error e =>
    { city := city,
      error := some ("Error processing city \x27" ++ pyStr city ++ "\x27: " ++ e) }

/-- A one-call buffer whose argument text makes parsing raise. -/
def buf8 : List (Nat × ToolInvocation) :=
  [(0, { id := "id8", function := { name := "get_weather", arguments := "42" } })]

def invW : ToolInvocation :=
  { id := "idW", function := { name := "foo", arguments := "\x7b\x7d" } }

/-- A one-call buffer with an unknown function name and parseable arguments. -/
def bufW : List (Nat × ToolInvocation) := [(0, invW)]

def respW : ToolCallResponse :=
  { tool_call_id := "idW", role := "tool", name := "foo",
    content := "Error: Unknown function requested." }

/-- The fragments addressed to slot `i`, in arrival order. -/
def slotFrags (frags : List ToolCallFragment) (i : Nat) : List ToolCallFragment :=
  frags.filter (fun f => f.index == i)

/-- The invocation a slot holds at stream end: the concatenation, in arrival
order, of that slot's fragment pieces, starting from a fresh invocation. -/
def slotConcat (frags : List ToolCallFragment) (i : Nat) : ToolInvocation :=
  (slotFrags frags i).foldl applyFragment {}

/-- The slot indices occurring in a fragment sequence, without duplicates. -/
def slots (frags : List ToolCallFragment) : List Nat :=
  (frags.map ToolCallFragment.index).dedup

def insertOnce (l : List Nat) (i : Nat) : List Nat :=
  if i ∈ l then l else l ++ [i]

/-- The buffer's key sequence: slot indices in first-seen order, as a Python
dict's keys. -/
def seenSlots (frags : List ToolCallFragment) : List Nat :=
  frags.foldl (fun l f => insertOnce l f.index) []

/-- Fragments of one invocation at slot 1 and one at slot 0, interleaved. -/
def fragsA : List ToolCallFragment :=
  [{ index := 1, id := some "b" },
   { index := 0, id := some "a" },
   { index := 1, name := some "f", arguments := some "x" }]

/-- The same per-slot fragments as `fragsA`, in a different interleaving. -/
def fragsB : List ToolCallFragment :=
  [{ index := 1, id := some "b" },
   { index := 1, name := some "f", arguments := some "x" },
   { index := 0, id := some "a" }]

def exceptOk {ε α : Type} : Except ε α → Bool
  | .ok _ => true
  | .error _ => false

def exceptDecEq {ε α : Type} [DecidableEq ε] [DecidableEq α] :
    (x y : Except ε α) → Decidable (x = y)
  | .ok a, .ok b =>
    if h : a = b then isTrue (by rw [h])
    else isFalse (by intro hh; cases hh; exact h rfl)
  | .error a, .error b =>
    if h : a = b then isTrue (by rw [h])
    else isFalse (by intro hh; cases hh; exact h rfl)
  | .ok _, .error _ => isFalse (by intro h; cases h)
  | .error _, .ok _ => isFalse (by intro h; cases h)

instance {ε α : Type} [DecidableEq ε] [DecidableEq α] : DecidableEq (Except ε α) :=
  exceptDecEq

def emptyAssistantMessage : Message := { role := "assistant" }

def stringifiedEmptyListArgs : String := "\x7b\"cities\": \"[]\"\x7d"

/-- Reduction of monadic bind on an `Except.ok` value. -/
theorem exceptBind_ok {ε α β : Type} (a : α) (f : α → Except ε β) :
    (Except.ok (ε := ε) a >>= f) = f a := rfl

/- ### Claim C2 -/

/-- Claim C2, evaluated at the failing input: the parser's decode chain is not
total.  `json.loads("42")` yields the integer 42 and the membership test
`"cities" in arguments` then raises a TypeError that no handler catches; and for
the argument text with a cities string that JSON-decodes to a number, the
function returns with a `cities` value that is not a list. -/
theorem parseToolArguments_not_total :
    parseToolArguments "42" = .error typeErrorNotIterable ∧
    parseToolArguments "\x7b\"cities\": \"42\"\x7d" =
      .ok { cities := .pynum ((42 : Nat) : ℚ),
            raw_arguments := .pydict [("cities", .pystr "42")] } := by
  constructor
  · rfl
  · rfl

/- ### Claim C4 -/

/-- Claim C4, counterexample: an empty stream turn (no content, no tool-call
fragments) appends an assistant message with empty content and no tool calls to
the transcript — construction and appending are not rejected. -/
theorem assistant_message_with_neither_is_appended :
    handleStreamResponse geoNone fetchFail "" [] [] =
      ([emptyAssistantMessage], .ok false) ∧
    emptyAssistantMessage.role = "assistant" ∧
    messageHasContent emptyAssistantMessage = false ∧
    messageHasToolCalls emptyAssistantMessage = false := by
  exact ⟨rfl, rfl, rfl, rfl⟩

/-- Claim C4, amended: the invariant is enforced at serialization time, not at
construction: `Message.to_dict` succeeds on an assistant message exactly when it
carries non-empty content or a non-empty tool-call list, and raises ValueError
otherwise. -/
theorem message_to_dict_enforces_assistant_invariant (m : Message)
    (h : m.role = "assistant") :
    exceptOk (messageToDict m) = (messageHasContent m || messageHasToolCalls m) := by
  unfold messageToDict
  rw [h]
  cases hc : messageHasContent m <;> cases ht : messageHasToolCalls m <;>
    simp [exceptOk, hc, ht]

/-- Claim C4, witness for the amended theorem at a concrete assistant message. -/
theorem message_to_dict_enforces_assistant_invariant_witness :
    exceptOk (messageToDict { role := "assistant", content := some "hi" }) =
      (messageHasContent { role := "assistant", content := some "hi" } ||
        messageHasToolCalls { role := "assistant", content := some "hi" }) :=
  message_to_dict_enforces_assistant_invariant { role := "assistant", content := some "hi" } rfl

/- ### Claim C5 -/

/-- Claim C5: whenever the normalized city list is empty, the weather tool returns
exactly the single fixed error tool-result, independent of the lookup oracles (no
per-city lookup is performed: the oracles do not occur in the result). -/
theorem run_weather_tool_empty_cities
    (geo : PyValue → Except String (Option Location))
    (fetch : PyValue → PyValue → Except String WeatherData)
    (call_id : String) (arguments : PyValue)
    (h : validateAndNormalizeCities arguments = .ok []) :
    runWeatherTool geo fetch call_id arguments =
      .ok { tool_call_id := call_id, role := "tool", name := WEATHER_TOOL_NAME,
            content := "Error: No cities provided." } := by
  unfold runWeatherTool
  rw [h]
  rfl

/-- Claim C5, witness: a dict with no cities key normalizes to the empty list and
yields the fixed error result. -/
theorem run_weather_tool_empty_cities_witness :
    validateAndNormalizeCities (.pydict []) = .ok [] ∧
    runWeatherTool geoNone fetchFail "cid" (.pydict []) =
      .ok { tool_call_id := "cid", role := "tool", name := WEATHER_TOOL_NAME,
            content := "Error: No cities provided." } :=
  ⟨rfl, run_weather_tool_empty_cities geoNone fetchFail "cid" (.pydict []) rfl⟩

/- ### Claim C6 -/

/-- Claim C6, counterexample: the returned value does not distinguish not-found
from a transport failure — a timeout, an HTTP error and an empty geocoding result
all return `None`. -/
theorem get_coordinates_value_indistinguishable :
    (getCoordinates (.timeout "boom")).1 = .ok none ∧
    (getCoordinates (.httpError "boom")).1 = .ok none ∧
    (getCoordinates (.success (.pydict [("results", .pylist [])]))).1 = .ok none ∧
    (getCoordinates (.timeout "boom")).1 =
      (getCoordinates (.success (.pydict [("results", .pylist [])]))).1 := by
  exact ⟨rfl, rfl, rfl, rfl⟩

/-- Claim C6, amended: not-found and transport failures both return `None`; the
two outcomes are distinguished only by the printed diagnostic — transport
failures print one `[System Error]` line, not-found prints nothing. -/
theorem get_coordinates_distinguished_only_by_diagnostic (m : String) (data : PyValue)
    (results : PyValue) (h1 : pyGet data "results" .pynone = .ok results)
    (h2 : pyTruthy results = false) :
    getCoordinates (.timeout m) = (.ok none, [geoTimeoutLine m]) ∧
    getCoordinates (.httpError m) = (.ok none, [geoFailedLine m]) ∧
    getCoordinates (.success data) = (.ok none, []) := by
  refine ⟨rfl, rfl, ?_⟩
  simp only [getCoordinates]
  rw [h1, exceptBind_ok, h2]
  rfl

/-- Claim C6, witness for the amended theorem at a concrete not-found body. -/
theorem get_coordinates_distinguished_only_by_diagnostic_witness :
    getCoordinates (.timeout "t") = (.ok none, [geoTimeoutLine "t"]) ∧
    getCoordinates (.httpError "t") = (.ok none, [geoFailedLine "t"]) ∧
    getCoordinates (.success (.pydict [])) = (.ok none, []) :=
  get_coordinates_distinguished_only_by_diagnostic "t" (.pydict []) .pynone rfl rfl

/- ### Claim C7 -/

/-- Claim C7: a request-level timeout at stream creation ends the turn with the
transcript exactly as it was, and the interaction loop appends nothing further
and terminates. -/
theorem api_timeout_is_atomic
    (geo : PyValue → Except String (Option Location))
    (fetch : PyValue → PyValue → Except String WeatherData)
    (msg : String) (rest : List StreamCreation) (history : List Message) :
    runTurn geo fetch (.timeout msg) history = (history, false) ∧
    runInteractionLoop geo fetch (.timeout msg :: rest) history = history := by
  exact ⟨rfl, rfl⟩

/- ### Claim C9 -/

/-- Claim C9, counterexample: an invocation with an unknown function name and the
argument text `42` makes `_execute_tool_call` raise (inside argument parsing,
which runs before the name dispatch) instead of returning the fixed error
tool-result. -/
theorem execute_tool_call_unknown_function_raises :
    executeToolCall geoNone fetchFail
      { id := "id9b", function := { name := "foo", arguments := "42" } } =
      .error typeErrorNotIterable := by
  rfl

/-- Claim C9, amended: for every invocation whose function name is not the weather
tool name and whose argument text parses without raising, `_execute_tool_call`
returns the fixed unknown-function tool-result carrying the invocation's call id. -/
theorem execute_tool_call_unknown_function
    (geo : PyValue → Except String (Option Location))
    (fetch : PyValue → PyValue → Except String WeatherData)
    (tool_call : ToolInvocation) (pa : ParsedToolArguments)
    (hname : tool_call.function.name ≠ WEATHER_TOOL_NAME)
    (hparse : parseToolArguments tool_call.function.arguments = .ok pa) :
    executeToolCall geo fetch tool_call =
      .ok { tool_call_id := tool_call.id, role := "tool",
            name := tool_call.function.name,
            content := "Error: Unknown function requested." } := by
  unfold executeToolCall
  rw [hparse]
  simp [Except.bind, hname]

/-- Claim C9, witness for the amended theorem at a concrete invocation. -/
theorem execute_tool_call_unknown_function_witness :
    parseToolArguments "\x7b\x7d" = .ok { } ∧
    executeToolCall geoNone fetchFail
      { id := "id9", function := { name := "foo", arguments := "\x7b\x7d" } } =
      .ok { tool_call_id := "id9", role := "tool", name := "foo",
            content := "Error: Unknown function requested." } :=
  ⟨rfl, execute_tool_call_unknown_function geoNone fetchFail
    { id := "id9", function := { name := "foo", arguments := "\x7b\x7d" } } { }
    (by decide) rfl⟩

/- ### Claim C10 -/

/-- Claim C10: for the argument text with cities given as the string `[]`, the
parsed cities list is empty but falsy, so `ParsedToolArguments.to_dict` keeps the
raw string cities value, normalization wraps that string as a single city name,
and the executor runs the fan-out for the literal city `[]` instead of returning
the no-cities error. -/
theorem raw_arguments_precedence_on_stringified_empty_list
    (geo : PyValue → Except String (Option Location))
    (fetch : PyValue → PyValue → Except String WeatherData) :
    parseToolArguments stringifiedEmptyListArgs =
      .ok { cities := .pylist [], raw_arguments := .pydict [("cities", .pystr "[]")] } ∧
    parsedToolArgumentsToDict
        { cities := .pylist [], raw_arguments := .pydict [("cities", .pystr "[]")] } =
      .ok (.pydict [("cities", .pystr "[]")]) ∧
    validateAndNormalizeCities (.pydict [("cities", .pystr "[]")]) =
      .ok [.pystr "[]"] ∧
    executeToolCall geo fetch
      { id := "call1", function := { name := "get_weather",
                                     arguments := stringifiedEmptyListArgs } } =
      .ok { tool_call_id := "call1", role := "tool", name := WEATHER_TOOL_NAME,
            content :=
              formatWeatherContent (fetchWeatherForCities geo fetch [.pystr "[]"]) } := by
  refine ⟨rfl, rfl, rfl, rfl⟩

/- ### Claim C3 -/

/-- Claim C3: the fan-out result has exactly one entry per input city, in input
order, and each entry is the outcome of that city's pipeline alone (resolution
not-found, fetch failure and raised exceptions each become that city's error
entry), so a failure in one pipeline cannot change the presence, order or
outcome of any other city's entry; the join waits for every pipeline. -/
theorem fetch_weather_fan_out
    (geo : PyValue → Except String (Option Location))
    (fetch : PyValue → PyValue → Except String WeatherData)
    (cities : List PyValue) (_h : cities ≠ []) :
    (fetchWeatherForCities geo fetch cities).length = cities.length ∧
    fetchWeatherForCities geo fetch cities = cities.map (processOneCity geo fetch) := by
  have key : ∀ l : List PyValue,
      fetchWeatherForCities geo fetch l = l.map (processOneCity geo fetch) := by
    intro l
    induction l with
    | nil => rfl
    | cons c cs ih =>
      have step : fetchWeatherForCities geo fetch (c :: cs) =
          processOneCity geo fetch c :: fetchWeatherForCities geo fetch cs := by
        cases hg : getWeatherForCity geo fetch c with
        | ok r =>
          simp [fetchWeatherForCities, processCityResults, processOneCity, hg]
        | error e =>
          simp [fetchWeatherForCities, processCityResults, processOneCity, hg]
      rw [step, ih, List.map_cons]
  exact ⟨by rw [key cities, List.length_map], key cities⟩

/-- Claim C3, witness: the specified three-city scenario — X succeeds, Y's
resolution fails, Z's fetch raises — yields three entries in input order. -/
theorem fetch_weather_fan_out_witness :
    cities3 ≠ [] ∧
    fetchWeatherForCities geo3 fetch3 cities3 =
      cities3.map (processOneCity geo3 fetch3) ∧
    fetchWeatherForCities geo3 fetch3 cities3 =
      [{ city := .pystr "X", location := some locX, weather_data := some wdX },
       { city := .pystr "Y",
         error := some "Error: Could not find coordinates for city \x27Y\x27." },
       { city := .pystr "Z",
         error := some "Error fetching weather data for Z: boom" }] :=
  ⟨by decide, (fetch_weather_fan_out geo3 fetch3 cities3 (by decide)).2, by rfl⟩

/- ### Claim C8 -/

/-- Claim C8, counterexample: when the first assembled call's argument text makes
parsing raise, no tool-result message is appended and the loop does not
continue, so a non-empty assembled list does not always execute its first call
and append one tool-result. -/
theorem tool_call_execution_failure_breaks_turn :
    (handleStreamResponse geoNone fetchFail "" buf8 []).2 ≠ .ok true ∧
    ((handleStreamResponse geoNone fetchFail "" buf8 []).1.filter
        (fun m => m.role == "tool")).length = 0 := by
  exact ⟨by decide, rfl⟩

/-- Claim C8, amended: whenever the assembled tool-call list is non-empty and
executing its first call returns normally, only that first call is executed:
the assistant message recording all assembled calls and exactly one tool-result
message for the first call are appended, the remaining calls are discarded
without execution, and the loop continues. -/
theorem single_tool_call_policy
    (geo : PyValue → Except String (Option Location))
    (fetch : PyValue → PyValue → Except String WeatherData)
    (content : String) (buf : List (Nat × ToolInvocation)) (history : List Message)
    (tc : ToolInvocation) (rest : List ToolInvocation) (d : ToolCallResponse)
    (hconv : convertToolCallsBuffer buf = tc :: rest)
    (hexec : executeToolCall geo fetch tc = .ok d) :
    handleStreamResponse geo fetch content buf history =
      (history ++ [assistantMessage content (tc :: rest), toolMessageOf d],
       .ok true) := by
  have hne : buf.isEmpty = false := by
    cases buf with
    | nil => exact List.noConfusion hconv
    | cons p l => rfl
  unfold handleStreamResponse
  simp only [hne, Bool.false_eq_true, if_false, hconv, handleToolCalls, hexec]
  simp [List.append_assoc]

/-- Claim C8, witness for the amended theorem at a concrete one-call buffer. -/
theorem single_tool_call_policy_witness :
    convertToolCallsBuffer bufW = invW :: [] ∧
    executeToolCall geoNone fetchFail invW = .ok respW ∧
    handleStreamResponse geoNone fetchFail "hi" bufW [] =
      ([assistantMessage "hi" (invW :: []), toolMessageOf respW], .ok true) :=
  ⟨rfl, rfl,
   single_tool_call_policy geoNone fetchFail "hi" bufW [] invW [] respW rfl rfl⟩

/- ### Claim C1: assembler lemmas -/

theorem slotFrags_append (frags : List ToolCallFragment) (f : ToolCallFragment) (i : Nat) :
    slotFrags (frags ++ [f]) i =
      slotFrags frags i ++ (if f.index == i then [f] else []) := by
  simp only [slotFrags, List.filter_append, List.filter_singleton]
  cases h : (f.index == i) <;> simp [h]

theorem slotConcat_append (frags : List ToolCallFragment) (f : ToolCallFragment) (i : Nat) :
    slotConcat (frags ++ [f]) i =
      if f.index == i then applyFragment (slotConcat frags i) f
      else slotConcat frags i := by
  unfold slotConcat
  rw [slotFrags_append]
  cases h : (f.index == i) <;> simp [List.foldl_append]

theorem seenSlots_append (frags : List ToolCallFragment) (f : ToolCallFragment) :
    seenSlots (frags ++ [f]) = insertOnce (seenSlots frags) f.index := by
  simp [seenSlots, List.foldl_append]

theorem accumulate_append (frags : List ToolCallFragment) (f : ToolCallFragment) :
    accumulateToolCalls (frags ++ [f]) =
      accumulateStep (accumulateToolCalls frags) f := by
  simp [accumulateToolCalls, List.foldl_append]

theorem lookup_map_pair (g : Nat → ToolInvocation) :
    ∀ (l : List Nat) (i : Nat), i ∈ l →
      (l.map (fun j => (j, g j))).lookup i = some (g i) := by
  intro l
  induction l with
  | nil => intro i hi; cases hi
  | cons s t ih =>
    intro i hi
    by_cases hs : s = i
    · subst hs
      simp [List.lookup_cons]
    · have : i ∈ t := by
        cases hi with
        | head => exact absurd rfl hs
        | tail _ h => exact h
      have hbeq : (i == s) = false := beq_false_of_ne (fun h => hs h.symm)
      simp [List.lookup_cons, hbeq, ih i this]

theorem filterMap_eq_map_of_forall {α β : Type} (l : List α) (fn : α → Option β)
    (g : α → β) (h : ∀ a ∈ l, fn a = some (g a)) : l.filterMap fn = l.map g := by
  induction l with
  | nil => rfl
  | cons a t ih =>
    rw [List.filterMap_cons, h a (List.mem_cons_self a t), List.map_cons,
      ih (fun x hx => h x (List.mem_cons_of_mem a hx))]

theorem mem_slots_iff (frags : List ToolCallFragment) (i : Nat) :
    i ∈ slots frags ↔ slotFrags frags i ≠ [] := by
  simp only [slots, List.mem_dedup, List.mem_map, ne_eq, slotFrags,
    List.filter_eq_nil_iff, beq_iff_eq]
  constructor
  · rintro ⟨f, hf, rfl⟩ hall
    exact hall f hf rfl
  · intro h
    by_contra hno
    exact h (fun f hf hidx => hno ⟨f, hf, hidx⟩)

theorem insertionSort_ext (l1 l2 : List Nat) (h1 : l1.Nodup) (h2 : l2.Nodup)
    (hm : ∀ i, i ∈ l1 ↔ i ∈ l2) :
    List.insertionSort (· ≤ ·) l1 = List.insertionSort (· ≤ ·) l2 := by
  refine List.eq_of_perm_of_sorted ?_
    (List.sorted_insertionSort (· ≤ ·) l1) (List.sorted_insertionSort (· ≤ ·) l2)
  exact (List.perm_insertionSort _ l1).trans
    (((List.perm_ext_iff_of_nodup h1 h2).mpr hm).trans
      (List.perm_insertionSort _ l2).symm)

theorem accumulate_spec (frags : List ToolCallFragment) :
    accumulateToolCalls frags =
      (seenSlots frags).map (fun i => (i, slotConcat frags i)) ∧
    (seenSlots frags).Nodup ∧
    (∀ i, i ∈ seenSlots frags ↔ slotFrags frags i ≠ []) := by
  induction frags using List.reverseRecOn with
  | nil =>
    refine ⟨rfl, List.nodup_nil, ?_⟩
    intro i
    simp [seenSlots, slotFrags]
  | append_singleton frags f ih =>
    obtain ⟨hbuf, hnd, hmem⟩ := ih
    rw [accumulate_append, seenSlots_append, hbuf]
    by_cases hidx : f.index ∈ seenSlots frags
    · have hins : insertOnce (seenSlots frags) f.index = seenSlots frags := by
        simp [insertOnce, hidx]
      have hcond :
          (((seenSlots frags).map (fun i => (i, slotConcat frags i))).any
            (fun p => p.1 == f.index)) = true :=
        List.any_eq_true.mpr
          ⟨(f.index, slotConcat frags f.index),
            List.mem_map_of_mem _ hidx, by simp⟩
      refine ⟨?_, by rw [hins]; exact hnd, ?_⟩
      · rw [hins]
        unfold accumulateStep
        rw [if_pos hcond, List.map_map]
        apply List.map_congr_left
        intro i _
        by_cases hi : i = f.index
        · subst hi
          simp [slotConcat_append]
        · have h1 : (i == f.index) = false := beq_false_of_ne hi
          have h2 : (f.index == i) = false := beq_false_of_ne (Ne.symm hi)
          simp [Function.comp, h1, slotConcat_append, h2]
      · intro i
        rw [hins, slotFrags_append]
        by_cases hi : f.index = i
        · subst hi
          simp only [beq_self_eq_true, if_true]
          constructor
          · intro _
            simp
          · intro _
            exact hidx
        · have h2 : (f.index == i) = false := beq_false_of_ne hi
          simp only [h2, Bool.false_eq_true, if_false, List.append_nil]
          exact hmem i
    · have hins : insertOnce (seenSlots frags) f.index =
          seenSlots frags ++ [f.index] := by
        simp [insertOnce, hidx]
      have hcond :
          (((seenSlots frags).map (fun i => (i, slotConcat frags i))).any
            (fun p => p.1 == f.index)) = false :=
        List.any_eq_false.mpr (fun x hx => by
          obtain ⟨j, hj, rfl⟩ := List.mem_map.mp hx
          simp only [beq_iff_eq]
          intro hx2
          exact hidx (hx2 ▸ hj))
      have hempty : slotFrags frags f.index = [] := by
        by_contra hne
        exact hidx ((hmem f.index).mpr hne)
      refine ⟨?_, ?_, ?_⟩
      · rw [hins]
        unfold accumulateStep
        rw [if_neg (by rw [hcond]; exact Bool.false_ne_true), List.map_append]
        congr 1
        · apply List.map_congr_left
          intro i hi
          have hne : f.index ≠ i := fun h => hidx (h ▸ hi)
          have h2 : (f.index == i) = false := beq_false_of_ne hne
          simp [slotConcat_append, h2]
        · simp only [List.map_cons, List.map_nil]
          rw [slotConcat_append]
          simp only [beq_self_eq_true, if_true]
          rw [slotConcat, hempty]
          rfl
      · rw [hins]
        apply List.Nodup.append hnd (List.nodup_singleton _)
        intro a ha hb
        cases hb with
        | head => exact hidx ha
        | tail _ htl => cases htl
      · intro i
        rw [hins, slotFrags_append]
        by_cases hi : f.index = i
        · subst hi
          simp
        · have h2 : (f.index == i) = false := beq_false_of_ne hi
          simp only [h2, Bool.false_eq_true, if_false, List.append_nil,
            List.mem_append, List.mem_singleton]
          rw [hmem i]
          constructor
          · rintro (h | h)
            · exact h
            · exact absurd h.symm hi
          · intro h
            exact Or.inl h

theorem convert_accumulate (frags : List ToolCallFragment) :
    convertToolCallsBuffer (accumulateToolCalls frags) =
      (List.insertionSort (· ≤ ·) (slots frags)).map (slotConcat frags) := by
  obtain ⟨hbuf, hnd, hmem⟩ := accumulate_spec frags
  rw [convertToolCallsBuffer, hbuf]
  have hkeys : (((seenSlots frags).map (fun i => (i, slotConcat frags i))).map
      Prod.fst) = seenSlots frags := by
    rw [List.map_map,
      show (Prod.fst ∘ fun i => (i, slotConcat frags i)) = (id : Nat → Nat) from rfl,
      List.map_id]
  rw [hkeys]
  have hsort : List.insertionSort (· ≤ ·) (seenSlots frags) =
      List.insertionSort (· ≤ ·) (slots frags) :=
    insertionSort_ext _ _ hnd (List.nodup_dedup _)
      (fun i => (hmem i).trans (mem_slots_iff frags i).symm)
  rw [hsort]
  apply filterMap_eq_map_of_forall
  intro i hi
  have h1 : i ∈ slots frags :=
    (List.perm_insertionSort (· ≤ ·) (slots frags)).mem_iff.mp hi
  have h2 : i ∈ seenSlots frags := (hmem i).mpr ((mem_slots_iff frags i).mp h1)
  exact lookup_map_pair _ _ _ h2

/-- Claim C1: the finalized list equals the slot indices in ascending order, each
slot carrying the concatenation, in arrival order, of that slot's fragment
pieces (a slot's invocation starts fresh at its first fragment and pieces are
only appended); consequently, any two fragment sequences that agree slot-by-slot
— every interleaving across different slots — assemble to the same finalized
list. -/
theorem tool_call_assembler_spec (frags : List ToolCallFragment) :
    convertToolCallsBuffer (accumulateToolCalls frags) =
      (List.insertionSort (· ≤ ·) (slots frags)).map (slotConcat frags) ∧
    ∀ frags2 : List ToolCallFragment,
      (∀ i : Nat, slotFrags frags i = slotFrags frags2 i) →
      convertToolCallsBuffer (accumulateToolCalls frags) =
        convertToolCallsBuffer (accumulateToolCalls frags2) := by
  refine ⟨convert_accumulate frags, ?_⟩
  intro frags2 hfilter
  rw [convert_accumulate frags, convert_accumulate frags2]
  have hslots : List.insertionSort (· ≤ ·) (slots frags) =
      List.insertionSort (· ≤ ·) (slots frags2) :=
    insertionSort_ext _ _ (List.nodup_dedup _) (List.nodup_dedup _)
      (fun i => by rw [mem_slots_iff, mem_slots_iff, hfilter i])
  have hconcat : slotConcat frags = slotConcat frags2 :=
    funext (fun i => by unfold slotConcat; rw [hfilter i])
  rw [hslots, hconcat]

/-- Claim C1, witness: two interleavings of the same per-slot fragments assemble
to the same finalized list, ordered by ascending slot index. -/
theorem tool_call_assembler_spec_witness :
    convertToolCallsBuffer (accumulateToolCalls fragsA) =
      (List.insertionSort (· ≤ ·) (slots fragsA)).map (slotConcat fragsA) ∧
    convertToolCallsBuffer (accumulateToolCalls fragsA) =
      convertToolCallsBuffer (accumulateToolCalls fragsB) ∧
    convertToolCallsBuffer (accumulateToolCalls fragsA) =
      [{ id := "a" }, { id := "b", function := { name := "f", arguments := "x" } }] :=
  ⟨(tool_call_assembler_spec fragsA).1,
   (tool_call_assembler_spec fragsA).2 fragsB
     (fun i =>
       match i with
       | 0 => rfl
       | 1 => rfl
       | _ + 2 => rfl),
   by decide⟩
